import Mathlib

/-!
Shallow embedding of `src/codels/camgazebo_main_codels.cc` (camgazebo-genom3).

Modelling conventions:
* C `double`/`float` values are modelled as exact rationals (`ℚ`); the libm
  `tan` function is an external collaborator and is passed in as an abstract
  parameter `t : ℚ → ℚ`.
* `uint16_t` width/height are modelled as `ℕ` (inputs are below 2^16); the
  C expression `*h * *w * 3` is modelled with exact natural arithmetic.
* C integer division such as `w/2` (with `w : uint16_t` promoted to `int`)
  truncates; it is modelled by natural-number division `w / 2`.
* The genom3 execution model runs each codel as one atomic step relative to
  the others; concurrency is modelled as arbitrary interleaving of whole
  codel invocations (a small-step relation `Step`).
* Port writes (`frame->write`, `intrinsics->write`) append the written
  record to a log in the state, newest first.  The extrinsics port and
  `camgz_set_extrinsics` (lines 210-227, a plain wholesale overwrite) are
  not modelled: no claim refers to them and they touch none of the fields
  the claims are about.
-/

set_option genSizeOfSpec false
set_option genInjectivity false

namespace Camgazebo

/-- The `or_sensor_intrinsics` record: `calib` holds
`[focal_x, focal_y, skew, principal_x, principal_y]` (indices 0..4 of
`calib._buffer` in the source) and `disto` the 5 distortion coefficients. -/
structure or_sensor_intrinsics where
  calib0 : ℚ
  calib1 : ℚ
  calib2 : ℚ
  calib3 : ℚ
  calib4 : ℚ
  disto0 : ℚ
  disto1 : ℚ
  disto2 : ℚ
  disto3 : ℚ
  disto4 : ℚ

/-- The `or_sensor_frame` record published on the frame port
(fields set in `camgz_pub`, lines 139-145). -/
structure or_sensor_frame where
  height : ℕ
  width : ℕ
  bpp : ℕ
  pixels : List ℕ

/-- `compute_calib` (lines 53-62).  Mirrors the C arithmetic:
`vfov = hfov*h/w` in double precision, but `w/2` and `h/2` are C `int`
divisions (truncating) because `w`, `h` are integers, so
`_buffer[0] = (w/2)/tan(hfov/2)`, `_buffer[1] = (h/2)/tan(vfov/2)`,
`_buffer[2] = 0`, `_buffer[3] = w/2`, `_buffer[4] = h/2`.
The distortion part of `intr` is left untouched. -/
def compute_calib (t : ℚ → ℚ) (hfov : ℚ) (w h : ℕ) (intr : or_sensor_intrinsics) :
    or_sensor_intrinsics :=
  let vfov : ℚ := hfov * (h : ℚ) / (w : ℚ)
  { intr with
    calib0 := ((w / 2 : ℕ) : ℚ) / t (hfov / 2)
    calib1 := ((h / 2 : ℕ) : ℚ) / t (vfov / 2)
    calib2 := 0
    calib3 := ((w / 2 : ℕ) : ℚ)
    calib4 := ((h / 2 : ℕ) : ℚ) }

/-- The whole observable state: the `ids` fields (`w`, `h`, `hfov`,
`info.started`), the global `or_camera_data* cgz_data` (`l` and the byte
store `data`), the frame port's sequence capacity (`pixels._maximum`), the
current port records, the subscription (`pipe->sub`) modelled by the count
of `Subscribe` calls and the last topic string, and the publication logs. -/
structure S where
  ids_w : ℕ
  ids_h : ℕ
  ids_hfov : ℚ
  started : Bool
  l : ℕ
  buf : List ℕ
  framePortMax : ℕ
  intrPort : or_sensor_intrinsics
  subCount : ℕ
  subTopic : String
  frameLog : List or_sensor_frame
  intrLog : List or_sensor_intrinsics

/-- Intrinsics port value with everything zero (genom zero-initialises port
data before the start codel runs; lines 93-97 then re-zero `disto`). -/
def initIntr : or_sensor_intrinsics :=
  ⟨0, 0, 0, 0, 0, 0, 0, 0, 0, 0⟩

/-- Modelled from the spec: the `or_camera_data` constructor lives in
`codels.hpp`, which is not under `src/`.  Per the spec (§3, §4.2) the frame
buffer is provisioned at startup so that `declared_length = width·height·3`
and the backing storage holds exactly `declared_length` bytes
(zero-initialised). -/
def initBufLen : ℕ := 1920 * 1080 * 3

/-- Modelled from the spec: `FrameBuffer.resize` — the storage management of
`or_camera_data` is in the missing `codels.hpp`; per the spec (§4.2) after a
successful resize the buffer holds `n` bytes (old content kept up to `n`,
zero-filled beyond). -/
def resizeBuf (n : ℕ) (b : List ℕ) : List ℕ :=
  b.take n ++ List.replicate (n - b.length) 0

/-- `camgz_start` (lines 72-103): allocates `cgz_data`, sets
`ids = {started := false, hfov := 1.047, w := 1920, h := 1080}`, writes the
zero extrinsics (port not modelled), computes the calibration and writes
the intrinsics. -/
def startState (t : ℚ → ℚ) : S :=
  { ids_w := 1920
    ids_h := 1080
    ids_hfov := 1.047
    started := false
    l := initBufLen
    buf := List.replicate initBufLen 0
    framePortMax := 0
    intrPort := compute_calib t 1.047 1920 1080 initIntr
    subCount := 0
    subTopic := ""
    frameLog := []
    intrLog := [compute_calib t 1.047 1920 1080 initIntr] }

/-- `camgz_cb` (lines 40-50): if the incoming message length differs from
`cgz_data->l` the frame is skipped with a warning (the returned `Bool` is
`true` iff the size-mismatch diagnostic was emitted); otherwise the bytes
are copied into the buffer under the mutex. -/
def camgz_cb (msg : List ℕ) (s : S) : S × Bool :=
  if msg.length ≠ s.l then (s, true)
  else ({ s with buf := msg }, false)

/-- Events the main task's `wait` codel can yield. -/
inductive MainEvt where
  | pub
  | pause_wait

/-- `camgz_wait` (lines 111-118): yields `pub` iff `started`. -/
def camgz_wait (started : Bool) : MainEvt :=
  if started then .pub else .pause_wait

/-- The frame record `camgz_pub` builds (lines 139-145): height and width
from the ids, `bpp = 3`, and `l` bytes copied out of the buffer. -/
def pubFrame (s : S) : or_sensor_frame :=
  ⟨s.ids_h, s.ids_w, 3, s.buf.take s.l⟩

/-- New `pixels._maximum` after the reservation in `camgz_pub`
(lines 132-133): `genom_sequence_reserve` grows the sequence to `l` when
`l` exceeds the current maximum, otherwise nothing is reserved. -/
def pubMax (s : S) : ℕ :=
  if s.framePortMax < s.l then s.l else s.framePortMax

/-- `camgz_pub` (lines 126-151).  `allocOk` is the outcome of the external
allocation inside `genom_sequence_reserve`; when reservation is needed and
fails the codel returns the `camgazebo_e_mem` error (modelled as `none`)
with no state change and nothing published.  Otherwise the frame record is
written to the frame port (returned as `some`). -/
def camgz_pub (allocOk : Bool) (s : S) : S × Option or_sensor_frame :=
  if s.framePortMax < s.l ∧ allocOk = false then (s, none)
  else
    ({ s with
        framePortMax := pubMax s
        frameLog := pubFrame s :: s.frameLog }, some (pubFrame s))

/-- One scheduler tick of the main task: `camgz_wait` then, if it yields
`pub`, `camgz_pub` (the wiring of lines 106-124). -/
def tick (allocOk : Bool) (s : S) : S × Option or_sensor_frame :=
  match camgz_wait s.started with
  | .pub => camgz_pub allocOk s
  | .pause_wait => (s, none)

/-- The topic string built by `snprintf` in `camgz_connect` (line 175). -/
def mkTopic (world mdl link sensor : String) : String :=
  "/gazebo/" ++ world ++ "/" ++ mdl ++ "/" ++ link ++ "/" ++ sensor ++ "/image"

/-- `camgz_connect` (lines 161-182): unconditionally sets up the gazebo
client, creates a fresh node, subscribes to the topic (one more `Subscribe`
call, its handle stored in `pipe->sub`), and sets `started = true`.
There is no already-connected check. -/
def camgz_connect (world mdl link sensor : String) (s : S) : S :=
  { s with
    subCount := s.subCount + 1
    subTopic := mkTopic world mdl link sensor
    started := true }

/-- `camgz_disconnect` (lines 192-200): shuts the gazebo client down and
sets `started = false`. -/
def camgz_disconnect (s : S) : S :=
  { s with started := false }

/-- `camgz_set_hfov` (lines 237-250): stores the new field of view,
recomputes the calibration with the current `w`, `h` and writes the
intrinsics port. -/
def camgz_set_hfov (t : ℚ → ℚ) (v : ℚ) (s : S) : S :=
  let intr := compute_calib t v s.ids_w s.ids_h s.intrPort
  { s with ids_hfov := v, intrPort := intr, intrLog := intr :: s.intrLog }

/-- `camgz_set_fmt` (lines 260-276): stores the new resolution, sets
`cgz_data->l = h*w*3`, recomputes the calibration with the stored `hfov`
and writes the intrinsics port.  It has no failure path.  The
`resizeBuf` call is modelled from the spec (§4.2): the backing storage of
`or_camera_data` is managed in the missing `codels.hpp`. -/
def camgz_set_fmt (t : ℚ → ℚ) (w_val h_val : ℕ) (s : S) : S :=
  let l' : ℕ := h_val * w_val * 3
  let intr := compute_calib t s.ids_hfov w_val h_val s.intrPort
  { s with
    ids_w := w_val
    ids_h := h_val
    l := l'
    buf := resizeBuf l' s.buf
    intrPort := intr
    intrLog := intr :: s.intrLog }

/-- `camgz_set_disto` (lines 286-305): overwrites the five distortion
coefficients of the intrinsics port, leaves the calibration part alone,
and writes the port. -/
def camgz_set_disto (d0 d1 d2 d3 d4 : ℚ) (s : S) : S :=
  let intr := { s.intrPort with
    disto0 := d0, disto1 := d1, disto2 := d2, disto3 := d3, disto4 := d4 }
  { s with intrPort := intr, intrLog := intr :: s.intrLog }

/-- Interleaving semantics: any codel may run next, with arbitrary inputs
from its environment (incoming frames, activity arguments, allocation
outcomes).  `t` is the fixed external `tan`. -/
inductive Step (t : ℚ → ℚ) : S → S → Prop
  | cb (msg : List ℕ) (s : S) : Step t s (camgz_cb msg s).1
  | main (allocOk : Bool) (s : S) : Step t s (tick allocOk s).1
  | connect (world mdl link sensor : String) (s : S) :
      Step t s (camgz_connect world mdl link sensor s)
  | disconnect (s : S) : Step t s (camgz_disconnect s)
  | set_hfov (v : ℚ) (s : S) : Step t s (camgz_set_hfov t v s)
  | set_fmt (w_val h_val : ℕ) (s : S) : Step t s (camgz_set_fmt t w_val h_val s)
  | set_disto (d0 d1 d2 d3 d4 : ℚ) (s : S) :
      Step t s (camgz_set_disto d0 d1 d2 d3 d4 s)

/-- States reachable from startup. -/
def Reachable (t : ℚ → ℚ) (s : S) : Prop :=
  Relation.ReflTransGen (Step t) (startState t) s

/-- A micro-event inside one codel body. -/
inductive LEvent where
  | acq
  | rel
  | callOut (name : String)
  | op (name : String)

/-- Scan a codel's event list: `true` iff every externally-visible call
happens with the lock depth at zero. -/
def lockFreeCalls : List LEvent → ℕ → Bool
  | [], _ => true
  | .acq :: es, d => lockFreeCalls es (d + 1)
  | .rel :: es, d => lockFreeCalls es (d - 1)
  | .callOut _ :: es, d => (d == 0) && lockFreeCalls es d
  | .op _ :: es, d => lockFreeCalls es d

/-- Scan a codel's event list: `true` iff the named operation occurs at
some point while the lock is held. -/
def opLocked : List LEvent → String → ℕ → Bool
  | [], _, _ => false
  | .acq :: es, n, d => opLocked es n (d + 1)
  | .rel :: es, n, d => opLocked es n (d - 1)
  | .callOut _ :: es, n, d => opLocked es n d
  | .op m :: es, n, d => (m == n && 0 < d) || opLocked es n d

/-- `camgz_cb` events, matching-size branch (lines 43-49): length check,
then the guard (line 47) scoping exactly the `memcpy` (line 48); the guard
dies at the block's closing brace. -/
def cbTrace : List LEvent :=
  [.op "size_check", .acq, .op "memcpy", .rel]

/-- `camgz_cb` events, mismatch branch (lines 43-44): the check and the
`warnx` diagnostic; the lock is never taken. -/
def cbTraceMismatch : List LEvent :=
  [.op "size_check", .op "warnx"]

/-- `camgz_pub` events, success path (lines 130-150): reservation and field
writes before the guard; the guard (line 144) scopes to the END OF THE
FUNCTION, so the port-data copy (line 147) and the externally-visible
`frame->write` (line 148) happen while the mutex is held. -/
def pubTrace : List LEvent :=
  [.op "reserve_check", .op "set_fields", .acq, .op "memcpy",
   .op "copy_port_data", .callOut "frame_write", .rel]

/-- `camgz_connect` events (lines 168-179): the guard is taken first
(line 168), so gazebo client setup, node init and `Subscribe` (lines
170-176) all run while the mutex is held. -/
def connectTrace : List LEvent :=
  [.acq, .callOut "gazebo_setup", .callOut "node_init",
   .callOut "subscribe", .op "warnx", .op "set_started", .rel]

/-- `camgz_disconnect` events (lines 195-197): the guard is taken first,
so `gazebo::client::shutdown` runs while the mutex is held. -/
def disconnectTrace : List LEvent :=
  [.acq, .callOut "gazebo_shutdown", .op "set_started", .rel]

/-!
Concrete runs used by witnesses and counterexamples.
-/

/-- A concrete stand-in for the external `tan` (any function will do for
the tan-independent facts below). -/
def t0 : ℚ → ℚ := fun _ => 0

/-- A concrete `tan` that is `1` everywhere (nonzero, so the spec's
validity condition on `tan(hfov/2)` holds). -/
def tOne : ℚ → ℚ := fun _ => 1

/-- A concrete nonlinear `tan` (squaring), used to exhibit
`focal_y ≠ focal_x`. -/
def tSq : ℚ → ℚ := fun q => q * q

/-- Startup followed by `set_format(2, 2)`: a small reachable state with
declared length `2·2·3 = 12`. -/
def sFmt : S := camgz_set_fmt t0 2 2 (startState t0)

/-- `sFmt` followed by `connect`: a small reachable, connected state into
which no frame was ever ingested. -/
def sConn : S := camgz_connect "wrld" "mdl" "lnk" "cam" sFmt

lemma sFmt_reachable : Reachable t0 sFmt :=
  Relation.ReflTransGen.single (Step.set_fmt 2 2 (startState t0))

lemma sConn_reachable : Reachable t0 sConn :=
  Relation.ReflTransGen.tail sFmt_reachable
    (Step.connect "wrld" "mdl" "lnk" "cam" sFmt)

/-- Scan a codel's event list: `true` iff the named externally-visible call
occurs at some point while the lock is held. -/
def callLocked : List LEvent → String → ℕ → Bool
  | [], _, _ => false
  | .acq :: es, n, d => callLocked es n (d + 1)
  | .rel :: es, n, d => callLocked es n (d - 1)
  | .callOut m :: es, n, d => (m == n && 0 < d) || callLocked es n d
  | .op _ :: es, n, d => callLocked es n d

/-- C3 (amended): a scheduler tick emits no frame record when the bridge is
not connected, or when the output-sequence reservation fails (`e_mem`);
otherwise — on every tick while connected, whether or not a new frame
arrived — it copies the buffer bytes out and emits one frame record with
the current dimensions, `bpp = 3` and the pixel bytes.  There is no dirty
flag and no timestamp in the code. -/
theorem C3_tick (s₁ s₂ s₃ : S) (a : Bool)
    (h1 : s₁.started = false)
    (h2 : s₂.started = true) (h2m : s₂.framePortMax < s₂.l)
    (h3 : s₃.started = true) :
    tick a s₁ = (s₁, none) ∧
    tick false s₂ = (s₂, none) ∧
    tick true s₃ =
      ({ s₃ with framePortMax := pubMax s₃, frameLog := pubFrame s₃ :: s₃.frameLog },
       some (pubFrame s₃)) ∧
    (pubFrame s₃).height = s₃.ids_h ∧ (pubFrame s₃).width = s₃.ids_w ∧
    (pubFrame s₃).bpp = 3 ∧ (pubFrame s₃).pixels = s₃.buf.take s₃.l := by
  refine ⟨?_, ?_, ?_, rfl, rfl, rfl, rfl⟩
  · simp [tick, camgz_wait, h1]
  · simp [tick, camgz_wait, h2, camgz_pub, h2m]
  · simp [tick, camgz_wait, h3, camgz_pub]

/-- Witness for C3: the disconnected startup state idles; the connected
state `sConn` yields `e_mem` when reservation fails and publishes when it
succeeds. -/
theorem C3_tick_witness :
    (startState t0).started = false ∧ sConn.started = true ∧
    sConn.framePortMax < sConn.l ∧
    (tick true (startState t0) = (startState t0, none) ∧
     tick false sConn = (sConn, none) ∧
     tick true sConn =
       ({ sConn with framePortMax := pubMax sConn,
                     frameLog := pubFrame sConn :: sConn.frameLog },
        some (pubFrame sConn)) ∧
     (pubFrame sConn).height = sConn.ids_h ∧ (pubFrame sConn).width = sConn.ids_w ∧
     (pubFrame sConn).bpp = 3 ∧ (pubFrame sConn).pixels = sConn.buf.take sConn.l) :=
  ⟨rfl, rfl, by decide,
   C3_tick (startState t0) sConn sConn true rfl rfl (by decide) rfl⟩

/-- Counterexample for C3 as stated: in the connected state `sConn` no
frame was ever ingested and nothing was ever published (nothing
"dirty"/unpublished is pending), yet the tick emits a record — and a second
tick with no ingest in between emits another one. -/
theorem C3_tick_cex :
    sConn.started = true ∧ sConn.frameLog = [] ∧
    ((tick true sConn).2).isSome = true ∧
    ((tick true (tick true sConn).1).2).isSome = true := by
  refine ⟨rfl, rfl, ?_, ?_⟩ <;> decide

/-- C4: an incoming frame whose byte length differs from the declared
buffer length is discarded with a size-mismatch diagnostic and no state
mutation; a frame whose length matches is copied into the buffer, and the
copy happens under the lock (the `memcpy` sits between acquire and release
in the callback's event trace, and the callback performs no
externally-visible call under the lock). -/
theorem C4_cb (s : S) (m₁ m₂ : List ℕ)
    (h₁ : m₁.length ≠ s.l) (h₂ : m₂.length = s.l) :
    camgz_cb m₁ s = (s, true) ∧
    camgz_cb m₂ s = ({ s with buf := m₂ }, false) ∧
    lockFreeCalls cbTrace 0 = true ∧
    lockFreeCalls cbTraceMismatch 0 = true ∧
    opLocked cbTrace "memcpy" 0 = true := by
  refine ⟨?_, ?_, by decide, by decide, by decide⟩
  · unfold camgz_cb
    rw [if_pos h₁]
  · unfold camgz_cb
    rw [if_neg (not_not_intro h₂)]

/-- Witness for C4: at the state `sFmt` (declared length 12), the empty
message is dropped and a 12-byte message is stored. -/
theorem C4_cb_witness :
    ([] : List ℕ).length ≠ sFmt.l ∧ (List.replicate 12 5).length = sFmt.l ∧
    (camgz_cb [] sFmt = (sFmt, true) ∧
     camgz_cb (List.replicate 12 5) sFmt =
       ({ sFmt with buf := List.replicate 12 5 }, false) ∧
     lockFreeCalls cbTrace 0 = true ∧
     lockFreeCalls cbTraceMismatch 0 = true ∧
     opLocked cbTrace "memcpy" 0 = true) :=
  ⟨by decide, by decide,
   C4_cb sFmt [] (List.replicate 12 5) (by decide) (by decide)⟩

/-- C5 (amended): the calibration computation yields
`focal_x = ⌊width/2⌋ / tan(hfov/2)`, `skew = 0`,
`principal_x = ⌊width/2⌋` and `principal_y = ⌊height/2⌋` (the halves are
C integer divisions, truncating on odd dimensions), and exactly the same
`compute_calib` is applied at startup and by `set_hfov` and `set_format`. -/
theorem C5_calib (t : ℚ → ℚ) (hfov v : ℚ) (w h wv hv : ℕ)
    (intr : or_sensor_intrinsics) (s : S) :
    (compute_calib t hfov w h intr).calib0 = ((w / 2 : ℕ) : ℚ) / t (hfov / 2) ∧
    (compute_calib t hfov w h intr).calib2 = 0 ∧
    (compute_calib t hfov w h intr).calib3 = ((w / 2 : ℕ) : ℚ) ∧
    (compute_calib t hfov w h intr).calib4 = ((h / 2 : ℕ) : ℚ) ∧
    (startState t).intrPort = compute_calib t 1.047 1920 1080 initIntr ∧
    (camgz_set_hfov t v s).intrPort = compute_calib t v s.ids_w s.ids_h s.intrPort ∧
    (camgz_set_fmt t wv hv s).intrPort = compute_calib t s.ids_hfov wv hv s.intrPort :=
  ⟨rfl, rfl, rfl, rfl, rfl, rfl, rfl⟩

/-- Counterexample for C5 as stated: at the valid input
`(tan := tOne, hfov = 1, width = 3, height = 2)` (with `tOne (1/2) ≠ 0`),
the computed `principal_x` is `1`, not `width/2 = 3/2`, and the computed
`focal_x` is `1`, not `width / (2·tan(hfov/2)) = 3/2`. -/
theorem C5_calib_cex :
    (0 : ℕ) < 3 ∧ (0 : ℕ) < 2 ∧ tOne ((1 : ℚ) / 2) ≠ 0 ∧
    (compute_calib tOne 1 3 2 initIntr).calib3 ≠ (3 : ℚ) / 2 ∧
    (compute_calib tOne 1 3 2 initIntr).calib0 ≠
      (3 : ℚ) / (2 * tOne ((1 : ℚ) / 2)) := by
  refine ⟨by decide, by decide, ?_, ?_, ?_⟩ <;>
    norm_num [compute_calib, tOne, initIntr]

/-- C6 (amended): `connect` unconditionally (re-)establishes the external
subscription — one more `Subscribe` call, its handle stored — and sets
`started = true`, even when already connected (there is no
already-connected check); the post-state is always `Connected`, and the
frame buffer is untouched. -/
theorem C6_connect (world mdl link sensor : String) (s : S) :
    (camgz_connect world mdl link sensor s).started = true ∧
    (camgz_connect world mdl link sensor s).subCount = s.subCount + 1 ∧
    (camgz_connect world mdl link sensor s).subTopic = mkTopic world mdl link sensor ∧
    (camgz_connect world mdl link sensor s).l = s.l ∧
    (camgz_connect world mdl link sensor s).buf = s.buf :=
  ⟨rfl, rfl, rfl, rfl, rfl⟩

/-- Counterexample for C6 as stated: calling `connect` on an
already-connected state is not a no-op — a second subscription is
established (the `Subscribe` count reaches 2). -/
theorem C6_connect_cex :
    (camgz_connect "a" "b" "c" "d" (startState t0)).started = true ∧
    (camgz_connect "a" "b" "c" "d"
      (camgz_connect "a" "b" "c" "d" (startState t0))).subCount = 2 := by
  refine ⟨rfl, by decide⟩

/-- C7 (amended): the startup default resolution is 1920×1080 (not
320×240); from startup, `set_format(640, 480)` makes the declared buffer
length `480·640·3 = 921600` and the newly published Intrinsics record has
`principal_x = 320`. -/
theorem C7_set_format (t : ℚ → ℚ) :
    (startState t).ids_w = 1920 ∧ (startState t).ids_h = 1080 ∧
    (camgz_set_fmt t 640 480 (startState t)).l = 921600 ∧
    (camgz_set_fmt t 640 480 (startState t)).intrPort.calib3 = 320 ∧
    (camgz_set_fmt t 640 480 (startState t)).intrLog.head? =
      some (camgz_set_fmt t 640 480 (startState t)).intrPort := by
  refine ⟨rfl, rfl, rfl, ?_, rfl⟩
  show ((640 / 2 : ℕ) : ℚ) = 320
  norm_num

/-- Counterexample for C7 as stated: the startup default resolution is not
320×240 (the start codel sets 1920×1080). -/
theorem C7_set_format_cex :
    ¬((startState t0).ids_w = 320 ∧ (startState t0).ids_h = 240) := by
  decide

/-- C8: for every 5-coefficient input, `set_disto` overwrites only the
distortion component of the published Intrinsics: the five calibration
entries (focal lengths, skew, principal point) are unchanged, the five
distortion entries become the inputs, and the updated record is
published. -/
theorem C8_set_disto (d0 d1 d2 d3 d4 : ℚ) (s : S) :
    (camgz_set_disto d0 d1 d2 d3 d4 s).intrPort.calib0 = s.intrPort.calib0 ∧
    (camgz_set_disto d0 d1 d2 d3 d4 s).intrPort.calib1 = s.intrPort.calib1 ∧
    (camgz_set_disto d0 d1 d2 d3 d4 s).intrPort.calib2 = s.intrPort.calib2 ∧
    (camgz_set_disto d0 d1 d2 d3 d4 s).intrPort.calib3 = s.intrPort.calib3 ∧
    (camgz_set_disto d0 d1 d2 d3 d4 s).intrPort.calib4 = s.intrPort.calib4 ∧
    (camgz_set_disto d0 d1 d2 d3 d4 s).intrPort.disto0 = d0 ∧
    (camgz_set_disto d0 d1 d2 d3 d4 s).intrPort.disto1 = d1 ∧
    (camgz_set_disto d0 d1 d2 d3 d4 s).intrPort.disto2 = d2 ∧
    (camgz_set_disto d0 d1 d2 d3 d4 s).intrPort.disto3 = d3 ∧
    (camgz_set_disto d0 d1 d2 d3 d4 s).intrPort.disto4 = d4 ∧
    (camgz_set_disto d0 d1 d2 d3 d4 s).intrLog =
      (camgz_set_disto d0 d1 d2 d3 d4 s).intrPort :: s.intrLog :=
  ⟨rfl, rfl, rfl, rfl, rfl, rfl, rfl, rfl, rfl, rfl, rfl⟩

/-- C9 (amended): the ingest callback performs no externally-visible call
while holding the lock, but the publish codel performs the frame-port
write while the lock is held (the guard's scope runs to the end of the
codel), and connect/disconnect perform subscription setup and teardown
while holding it. -/
theorem C9_lock_discipline :
    lockFreeCalls cbTrace 0 = true ∧
    lockFreeCalls cbTraceMismatch 0 = true ∧
    callLocked pubTrace "frame_write" 0 = true ∧
    callLocked connectTrace "gazebo_setup" 0 = true ∧
    callLocked connectTrace "subscribe" 0 = true ∧
    callLocked disconnectTrace "gazebo_shutdown" 0 = true := by
  decide

/-- Counterexample for C9 as stated: the publish, connect and disconnect
codels each perform an externally-visible call at nonzero lock depth. -/
theorem C9_lock_cex :
    lockFreeCalls pubTrace 0 = false ∧
    lockFreeCalls connectTrace 0 = false ∧
    lockFreeCalls disconnectTrace 0 = false := by
  decide

/-- C10 (amended): the vertical focal length is derived from the
horizontal field of view via the aspect ratio,
`focal_y = ⌊height/2⌋ / tan(vfov/2)` with `vfov = hfov·h/w` (the half of
`h` is a C integer division), and in general `focal_y ≠ focal_x`
(witnessed at `tan = tSq`, `hfov = 2`, `w = 4`, `h = 2`). -/
theorem C10_focal_y (t : ℚ → ℚ) (hfov : ℚ) (w h : ℕ)
    (intr : or_sensor_intrinsics) :
    (compute_calib t hfov w h intr).calib1 =
      ((h / 2 : ℕ) : ℚ) / t (hfov * (h : ℚ) / (w : ℚ) / 2) ∧
    (compute_calib tSq 2 4 2 initIntr).calib1 ≠
      (compute_calib tSq 2 4 2 initIntr).calib0 := by
  refine ⟨rfl, ?_⟩
  simp [compute_calib, tSq, initIntr]
  norm_num

/-- Counterexample for C10 as stated: at
`(tan := tOne, hfov = 1, width = 2, height = 3)` the computed `focal_y` is
`1`, not `height / (2·tan(vfov/2)) = 3/2`. -/
theorem C10_focal_y_cex :
    tOne ((1 : ℚ) * 3 / 2 / 2) ≠ 0 ∧
    (compute_calib tOne 1 2 3 initIntr).calib1 ≠
      (3 : ℚ) / (2 * tOne ((1 : ℚ) * 3 / 2 / 2)) := by
  constructor <;>
    norm_num [compute_calib, tOne, initIntr]

end Camgazebo
